import Mathlib

/-!
Shallow embedding of `zoneminder_events_motion_mqtt_gifs.py`: a bridge that
subscribes to per-camera ZoneMinder motion-event topics on an MQTT broker,
copies the recorded clip for an event into a working folder, transcodes it to
an animated GIF with ffmpeg, and publishes the GIF filename on a per-camera
output topic.

Modelling conventions:
* Side effects at the boundary to the outside world (file copy, file removal,
  the ffmpeg subprocess invocation, mqtt publish/subscribe/connect/disconnect
  calls, and `logging.error` calls) are recorded as an `Effect` trace.
* Outcomes of external collaborators (UTF-8 payload decoding, the set of
  readable files, the ffmpeg exit status or exception, the mqtt publish
  result or exception) are supplied by an `Env` record; Python exceptions are
  modelled as `Except.error`.
* Python `str(int)` is embedded as `pyStr` (decimal rendering, fuel-based so
  it is kernel-computable), Python `str.zfill` as `zfill`, and Python
  `str.replace(pat, new)` with `new = ""` as `pyReplaceRemove` (left-to-right
  removal of every non-overlapping occurrence).
* `datetime.date.today()` is the `today` string of the environment: the
  current calendar date at processing time.
-/

/-- One observable side effect at the boundary of the program. -/
inductive Effect where
  | copy (src dst : String)
  | removeFile (path : String)
  | ffmpegCall (args : List String)
  | publish (topic payload : String)
  | subscribe (topic : String)
  | connectCall
  | disconnectCall
  | logError
  deriving DecidableEq, Repr

/-- A Python exception, abstracted to its kind. -/
inductive PyErr where
  | ioError
  | typeError
  | decodeError
  | mqttError
  | subprocessError
  deriving DecidableEq, Repr

/-- Decimal digit list of `n`, most significant first; `fuel` bounds the
recursion depth so the function is structurally recursive (any `fuel > n`
is enough). Embeds the digit sequence of Python `str(int)`. -/
def natDigitsF : Nat → Nat → List Char
  | 0, _ => []
  | f + 1, n =>
    if n < 10 then [Nat.digitChar n]
    else natDigitsF f (n / 10) ++ [Nat.digitChar (n % 10)]

/-- Embedding of Python `str(n)` / `"{}".format(n)` for a non-negative int. -/
def pyStr (n : Nat) : String := ⟨natDigitsF (n + 1) n⟩

/-- Embedding of Python `s.zfill(w)`: left-pad with `'0'` to width `w`. -/
def zfill (w : Nat) (s : String) : String :=
  if w ≤ s.length then s else ⟨List.replicate (w - s.length) '0' ++ s.data⟩

/-- One `zoneminder_cameras` entry of the configuration.  The source key
`event_video_prefix` is rendered here as `event_video_pfx`. -/
structure CameraProfile where
  id : String
  event_video_pfx : String
  scale : Nat
  skip_first_n_secs : Nat
  max_length_secs : Nat
  deriving DecidableEq, Repr

/-- The configuration fields the event pipeline reads. -/
structure Config where
  mqtt_base_events_topic : String
  mqtt_base_gifs_topic : String
  ffmpeg_working_folder : String
  zoneminder_events_video_folder : String
  zoneminder_cameras : List CameraProfile
  deriving DecidableEq, Repr

/-- Outcomes of the external collaborators during one callback invocation. -/
structure Env where
  /-- `datetime.date.today()` rendered as in the path format. -/
  today : String
  /-- The files that exist and are readable (`copyfile` succeeds iff the
  source is among them). -/
  files : List String
  /-- Outcome of `message.payload.decode("utf-8")`. -/
  decodeOutcome : Except PyErr String
  /-- Outcome of the `subprocess.call` to ffmpeg: exit status, or a raised
  exception. -/
  ffmpegOutcome : Except PyErr Int
  /-- Outcome of `mqtt_client.publish`: the paho result code (0 = success),
  or a raised exception. -/
  publishOutcome : Except PyErr Nat
  deriving Repr

/-- The source path `'{}/{}/{}.mp4'.format(zm_source_video_folder,
datetime.date.today(), event_video_prefix + '' + event_id)`. -/
def zm_source_path (zm_source_video_folder today event_video_pfx event_id : String) : String :=
  zm_source_video_folder ++ "/" ++ today ++ "/" ++ (event_video_pfx ++ "" ++ event_id) ++ ".mp4"

/-- Embedding of `zm_get_video`: copy the date-based source clip into the
working folder and return the working-copy path; a missing or unreadable
source makes `copyfile` raise, which propagates. -/
def zm_get_video (files : List String) (today : String)
    (ffmpeg_working_folder zm_source_video_folder event_video_pfx event_id : String) :
    Except PyErr (String × List Effect) :=
  let source_video := zm_source_path zm_source_video_folder today event_video_pfx event_id
  let outfile_video := ffmpeg_working_folder ++ "/" ++ event_id ++ ".mp4"
  if source_video ∈ files then
    Except.ok (outfile_video, [Effect.copy source_video outfile_video])
  else
    Except.error PyErr.ioError

/-- The `-vf` argument `"fps=15,scale={}:-1:flags=lanczos".format(scale)`. -/
def vfArg (scale : Nat) : String :=
  "fps=15,scale=" ++ pyStr scale ++ ":-1:flags=lanczos"

/-- The `-ss` argument `"00:00:" + "{}".format(skip_first_n_secs).zfill(2)`. -/
def seekArg (skip_first_n_secs : Nat) : String :=
  "00:00:" ++ zfill 2 (pyStr skip_first_n_secs)

/-- The exact ffmpeg argument vector passed to `subprocess.call`. -/
def ffmpegArgs (scale skip_first_n_secs max_length_secs : Nat)
    (input_video output_gif : String) : List String :=
  ["ffmpeg", "-stats", "-i", input_video, "-vf", vfArg scale,
   "-ss", seekArg skip_first_n_secs, "-t", pyStr max_length_secs, "-y", output_gif]

/-- Embedding of `convert_zm_video_to_gif`: run ffmpeg; if the call returns
(with any exit status) the working copy `input_video` is removed with
`os.remove` and the exit status is returned; if `subprocess.call` itself
raises, the exception propagates before `os.remove` runs. -/
def convert_zm_video_to_gif (ffmpegOutcome : Except PyErr Int)
    (scale skip_first_n_secs max_length_secs : Nat)
    (input_video output_gif : String) : Except PyErr Int × List Effect :=
  match ffmpegOutcome with
  | Except.ok retcode =>
      (Except.ok retcode,
       [Effect.ffmpegCall (ffmpegArgs scale skip_first_n_secs max_length_secs input_video output_gif),
        Effect.removeFile input_video])
  | Except.error e =>
      (Except.error e,
       [Effect.ffmpegCall (ffmpegArgs scale skip_first_n_secs max_length_secs input_video output_gif)])

/-- Core of Python `s.replace(p :: ps, "")`: scan left to right, removing
every non-overlapping occurrence of the (nonempty) pattern.  `fuel` bounds
the recursion depth so the function is structurally recursive; any
`fuel ≥ l.length` gives the real result. -/
def removeOccF (p : Char) (ps : List Char) : Nat → List Char → List Char
  | _, [] => []
  | 0, l => l
  | fuel + 1, c :: cs =>
    if (p :: ps).isPrefixOf (c :: cs) then removeOccF p ps fuel (cs.drop ps.length)
    else c :: removeOccF p ps fuel cs

/-- Remove every occurrence of the nonempty pattern `p :: ps` from `l`. -/
def removeAllOcc (p : Char) (ps : List Char) (l : List Char) : List Char :=
  removeOccF p ps l.length l

/-- Embedding of Python `s.replace(pat, '')` (the pattern used by the code is
never empty; an empty pattern with empty replacement is the identity in
Python as well). -/
def pyReplaceRemove (pat s : String) : String :=
  match pat.data with
  | [] => s
  | p :: ps => ⟨removeAllOcc p ps s.data⟩

/-- The camera identifier the handler derives from the inbound topic:
`str(message.topic).replace(config["mqtt_base_events_topic"] + '/', '')`. -/
def derivedCameraId (cfg : Config) (topic : String) : String :=
  pyReplaceRemove (cfg.mqtt_base_events_topic ++ "/") topic

/-- Modelled from the spec words for comparison with `derivedCameraId`:
"the inbound channel name with the leading events-base-topic prefix
stripped (removed exactly once, from the front); the remainder otherwise
unchanged". -/
def stripOnceFront (pre s : String) : String :=
  if pre.data.isPrefixOf s.data then ⟨s.data.drop pre.data.length⟩ else s

/-- Embedding of `publish_gif`: publish the gif filename on
`mqtt_base_gifs_topic + '/' + camera_topic`; the paho result code is only
logged and `True` is returned; if the publish call raises, the handler logs,
calls `disconnect()` and falls off the end (returning `None`). -/
def publish_gif (pubOutcome : Except PyErr Nat) (cfg : Config)
    (camera_topic gif : String) : Option Bool × List Effect :=
  match pubOutcome with
  | Except.ok _ =>
      (some true, [Effect.publish (cfg.mqtt_base_gifs_topic ++ "/" ++ camera_topic) gif])
  | Except.error _ =>
      (none, [Effect.publish (cfg.mqtt_base_gifs_topic ++ "/" ++ camera_topic) gif,
              Effect.logError, Effect.disconnectCall])

/-- Whether an mqtt send-call outcome is a failure: a raised exception, or a
returned paho result code other than 0 (`MQTT_ERR_SUCCESS`). -/
def mqttCallFailed : Except PyErr Nat → Bool
  | Except.ok rc => rc != 0
  | Except.error _ => true

/-- Embedding of `ZoneMinderMotionEventHandler.on_message`, returning the
effect trace of one callback invocation.  The enclosing `try`/`except` logs
and calls `disconnect()` on any exception raised by a step; `publish_gif`
catches its own exception (logging and disconnecting itself) and returns
`None`, which the caller only logs. -/
def on_message (cfg : Config) (env : Env) (topic : String) : List Effect :=
  match env.decodeOutcome with
  | Except.error _ => [Effect.logError, Effect.disconnectCall]
  | Except.ok event_id =>
    let camera_id := derivedCameraId cfg topic
    match cfg.zoneminder_cameras.find? (fun x => x.id == camera_id) with
    | none => [Effect.logError, Effect.disconnectCall]
    | some camera =>
      match zm_get_video env.files env.today cfg.ffmpeg_working_folder
          cfg.zoneminder_events_video_folder camera.event_video_pfx event_id with
      | Except.error _ => [Effect.logError, Effect.disconnectCall]
      | Except.ok res =>
        let outfile_video := res.1
        let tr1 := res.2
        let outfile_gif := cfg.ffmpeg_working_folder ++ "/" ++ event_id ++ ".gif"
        match convert_zm_video_to_gif env.ffmpegOutcome camera.scale
            camera.skip_first_n_secs camera.max_length_secs outfile_video outfile_gif with
        | (Except.error _, tr2) => tr1 ++ tr2 ++ [Effect.logError, Effect.disconnectCall]
        | (Except.ok retcode, tr2) =>
          if retcode = 0 then
            let pr := publish_gif env.publishOutcome cfg camera.id (event_id ++ ".gif")
            if pr.1 = some true then tr1 ++ tr2 ++ pr.2
            else tr1 ++ tr2 ++ pr.2 ++ [Effect.logError]
          else tr1 ++ tr2 ++ [Effect.logError]

/-- Whether some step of processing one inbound message raises a Python
exception (inside `on_message`'s own `try` or inside `publish_gif`'s):
payload decoding fails, the camera lookup yields `None` (so the subscript
raises `TypeError`), the source clip is missing, `subprocess.call` raises,
or the mqtt publish call raises. -/
def pipelineRaises (cfg : Config) (env : Env) (topic : String) : Bool :=
  match env.decodeOutcome with
  | Except.error _ => true
  | Except.ok event_id =>
    match cfg.zoneminder_cameras.find? (fun x => x.id == derivedCameraId cfg topic) with
    | none => true
    | some camera =>
      if zm_source_path cfg.zoneminder_events_video_folder env.today
          camera.event_video_pfx event_id ∈ env.files then
        match env.ffmpegOutcome with
        | Except.error _ => true
        | Except.ok retcode =>
          decide (retcode = 0) && (match env.publishOutcome with
            | Except.error _ => true
            | Except.ok _ => false)
      else true

/-- The subscription loop of `on_connect`.  `failAt` chooses which subscribe
call (if any) raises: `some k` makes the `k`-th call raise before taking
effect.  Returns the trace of issued subscribe effects and whether an
exception was raised. -/
def subscribeLoop (base : String) : List CameraProfile → Option Nat → List Effect × Bool
  | [], _ => ([], false)
  | _ :: _, some 0 => ([], true)
  | camera :: rest, some (k + 1) =>
    let r := subscribeLoop base rest (some k)
    (Effect.subscribe (base ++ "/" ++ camera.id) :: r.1, r.2)
  | camera :: rest, none =>
    let r := subscribeLoop base rest none
    (Effect.subscribe (base ++ "/" ++ camera.id) :: r.1, r.2)

/-- Embedding of `on_connect`, the callback the broker client runs upon a
successful connection (i.e. after the transition into the spec's `Connected`
state): subscribe to `<events-base-topic>/<camera.id>` for every configured
camera, then set `sub_connected = True`; any exception in the loop is
caught, logged, and answered with `disconnect()`, leaving `sub_connected`
at its prior value.  Returns the effect trace and the new flag value. -/
def on_connect (cfg : Config) (failAt : Option Nat) (sub_connected : Bool) :
    List Effect × Bool :=
  let r := subscribeLoop cfg.mqtt_base_events_topic cfg.zoneminder_cameras failAt
  if r.2 then (r.1 ++ [Effect.logError, Effect.disconnectCall], sub_connected)
  else (r.1, true)

/-- Embedding of `on_subscribe`: the acknowledgement callback sets
`sub_connected = True` unconditionally. -/
def on_subscribe (_sub_connected : Bool) : Bool :=
  true

/-- Embedding of `on_publish`: the acknowledgement callback sets
`sub_connected = True` unconditionally. -/
def on_publish (_sub_connected : Bool) : Bool :=
  true

/-- One poll of `main`'s driving loop: call `connect()` iff the shared
`sub_connected` flag is false. -/
def mainLoopIteration (sub_connected : Bool) : List Effect :=
  if sub_connected then [] else [Effect.connectCall]

/-- Whether an effect is an outbound mqtt publish. -/
def isPublishEffect : Effect → Bool
  | Effect.publish _ _ => true
  | _ => false

/-- Whether an effect mutates the filesystem (copy or removal). -/
def isFileMutation : Effect → Bool
  | Effect.copy _ _ => true
  | Effect.removeFile _ => true
  | _ => false

/-- A concrete camera profile matching the spec example. -/
def cam1 : CameraProfile :=
  { id := "cam1", event_video_pfx := "cam1-", scale := 480,
    skip_first_n_secs := 2, max_length_secs := 8 }

/-- A concrete configuration matching the spec example. -/
def cfg1 : Config :=
  { mqtt_base_events_topic := "zm/events", mqtt_base_gifs_topic := "zm/gifs",
    ffmpeg_working_folder := "/work", zoneminder_events_video_folder := "/source",
    zoneminder_cameras := [cam1] }

/-- A concrete environment where every step succeeds for event `123`. -/
def env1 : Env :=
  { today := "2026-10-12", files := ["/source/2026-10-12/cam1-123.mp4"],
    decodeOutcome := Except.ok ("123"), ffmpegOutcome := Except.ok 0,
    publishOutcome := Except.ok 0 }

/-- A configuration whose events base topic recurs inside a camera id,
exercising the `str.replace` semantics of the camera-id derivation. -/
def cfgB : Config :=
  { mqtt_base_events_topic := "b", mqtt_base_gifs_topic := "g",
    ffmpeg_working_folder := "/work", zoneminder_events_video_folder := "/source",
    zoneminder_cameras := [] }

/-- Like `env1` but the mqtt publish call raises an exception. -/
def envPubErr : Env :=
  { env1 with publishOutcome := Except.error PyErr.mqttError }

/-- Abbreviation for the working-copy path of an event's clip. -/
def workingCopy (cfg : Config) (event_id : String) : String :=
  cfg.ffmpeg_working_folder ++ "/" ++ event_id ++ ".mp4"

/-- Abbreviation for the gif artifact path of an event. -/
def gifPath (cfg : Config) (event_id : String) : String :=
  cfg.ffmpeg_working_folder ++ "/" ++ event_id ++ ".gif"

/-- Abbreviation for the source-clip path `on_message` asks `zm_get_video`
to copy. -/
def srcPath (cfg : Config) (env : Env) (camera : CameraProfile) (event_id : String) : String :=
  zm_source_path cfg.zoneminder_events_video_folder env.today camera.event_video_pfx event_id

/-! ### Helper lemmas: decimal rendering -/

theorem natDigitsF_stable (f : Nat) : ∀ g n, n < f → n < g → natDigitsF f n = natDigitsF g n := by
  induction f with
  | zero => intro g n h _; omega
  | succ f ih =>
    intro g n hf hg
    match g, hg with
    | g + 1, hg' =>
      simp only [natDigitsF]
      by_cases h10 : n < 10
      · simp [h10]
      · have hd : n / 10 < n := Nat.div_lt_self (by omega) (by omega)
        simp only [h10, if_false]
        rw [ih g (n / 10) (by omega) (by omega)]

theorem pyStr_data_lt {n : Nat} (h : n < 10) : (pyStr n).data = [Nat.digitChar n] := by
  simp [pyStr, natDigitsF, h]

theorem pyStr_data_ge {n : Nat} (h : 10 ≤ n) :
    (pyStr n).data = (pyStr (n / 10)).data ++ [Nat.digitChar (n % 10)] := by
  have h10 : ¬ n < 10 := by omega
  have hd : n / 10 < n := Nat.div_lt_self (by omega) (by omega)
  have step : (pyStr n).data = natDigitsF n (n / 10) ++ [Nat.digitChar (n % 10)] := by
    simp only [pyStr, natDigitsF, h10, if_false]
  rw [step, natDigitsF_stable n (n / 10 + 1) (n / 10) (by omega) (by omega)]
  rfl

theorem pyStr_data_ne_nil (n : Nat) : (pyStr n).data ≠ [] := by
  by_cases h : n < 10
  · rw [pyStr_data_lt h]; simp
  · rw [pyStr_data_ge (by omega)]; simp

theorem digitChar_inj : ∀ a, a < 10 → ∀ b, b < 10 → Nat.digitChar a = Nat.digitChar b → a = b := by
  decide

theorem pyStr_head_ne_zero : ∀ n, 0 < n → ∀ c, ((pyStr n).data).head? = some c → c ≠ '0' := by
  intro n
  induction n using Nat.strong_induction_on with
  | _ n ih =>
    intro hn c hc
    by_cases h : n < 10
    · rw [pyStr_data_lt h] at hc
      have hcc : Nat.digitChar n = c := by simpa using hc
      have hno : ∀ m, m < 10 → 0 < m → Nat.digitChar m ≠ '0' := by decide
      exact hcc ▸ hno n h hn
    · rw [pyStr_data_ge (by omega)] at hc
      have hne := pyStr_data_ne_nil (n / 10)
      match hd : (pyStr (n / 10)).data, hne with
      | d :: ds, _ =>
        rw [hd] at hc
        simp only [List.cons_append, List.head?] at hc
        have hpos : 0 < n / 10 := Nat.div_pos (by omega) (by omega)
        have hlt : n / 10 < n := Nat.div_lt_self (by omega) (by omega)
        refine ih (n / 10) hlt hpos c ?_
        rw [hd]; simpa using hc

theorem pyStr_data_one_le (n : Nat) : 1 ≤ (pyStr n).data.length := by
  cases hnd : (pyStr n).data with
  | nil => exact absurd hnd (pyStr_data_ne_nil n)
  | cons d ds => simp

theorem pyStr_data_len_ge_two {n : Nat} (h : 10 ≤ n) : 2 ≤ (pyStr n).data.length := by
  rw [pyStr_data_ge h]
  have h1 := pyStr_data_one_le (n / 10)
  simp only [List.length_append, List.length_cons, List.length_nil]
  omega

theorem pyStr_inj : ∀ m n, pyStr m = pyStr n → m = n := by
  intro m
  induction m using Nat.strong_induction_on with
  | _ m ih =>
    intro n hmn
    have hdata : (pyStr m).data = (pyStr n).data := by rw [hmn]
    by_cases hm : m < 10 <;> by_cases hn : n < 10
    · rw [pyStr_data_lt hm, pyStr_data_lt hn] at hdata
      exact digitChar_inj m hm n hn (by simpa using hdata)
    · exfalso
      rw [pyStr_data_lt hm, pyStr_data_ge (n := n) (by omega)] at hdata
      have hlen := congrArg List.length hdata
      have h1 := pyStr_data_one_le (n / 10)
      simp only [List.length_append, List.length_cons, List.length_nil] at hlen
      omega
    · exfalso
      rw [pyStr_data_ge (n := m) (by omega), pyStr_data_lt hn] at hdata
      have hlen := congrArg List.length hdata
      have h1 := pyStr_data_one_le (m / 10)
      simp only [List.length_append, List.length_cons, List.length_nil] at hlen
      omega
    · rw [pyStr_data_ge (n := m) (by omega), pyStr_data_ge (n := n) (by omega)] at hdata
      have hpair := List.append_inj' hdata (by simp)
      have hdiv : m / 10 = n / 10 := by
        have hlt : m / 10 < m := Nat.div_lt_self (by omega) (by omega)
        exact ih (m / 10) hlt (n / 10) (String.ext hpair.1)
      have hmod : m % 10 = n % 10 := by
        have h1 : Nat.digitChar (m % 10) = Nat.digitChar (n % 10) := by
          have h2 := hpair.2; simpa using h2
        exact digitChar_inj (m % 10) (Nat.mod_lt _ (by omega)) (n % 10)
          (Nat.mod_lt _ (by omega)) h1
      have hm10 := Nat.div_add_mod m 10
      have hn10 := Nat.div_add_mod n 10
      omega

theorem str_length_eq (s : String) : s.length = s.data.length := rfl

theorem zfill_two_pyStr_lt {a : Nat} (h : a < 10) :
    (zfill 2 (pyStr a)).data = ['0', Nat.digitChar a] := by
  have hlen : (pyStr a).length = 1 := by
    rw [str_length_eq, pyStr_data_lt h]; rfl
  have h2 : ¬ 2 ≤ (pyStr a).length := by omega
  simp only [zfill, h2, if_false]
  rw [show (2 - (pyStr a).length) = 1 from by omega]
  simp [pyStr_data_lt h]

theorem zfill_two_pyStr_ge {a : Nat} (h : 10 ≤ a) : zfill 2 (pyStr a) = pyStr a := by
  have hlen : 2 ≤ (pyStr a).length := by
    rw [str_length_eq]
    exact pyStr_data_len_ge_two h
  simp [zfill, hlen]

theorem zfill_two_pyStr_inj : ∀ a b, zfill 2 (pyStr a) = zfill 2 (pyStr b) → a = b := by
  intro a b hab
  by_cases ha : a < 10 <;> by_cases hb : b < 10
  · have hd := congrArg String.data hab
    rw [zfill_two_pyStr_lt ha, zfill_two_pyStr_lt hb] at hd
    exact digitChar_inj a ha b hb (by simpa using hd)
  · exfalso
    have hd := congrArg String.data hab
    rw [zfill_two_pyStr_lt ha, zfill_two_pyStr_ge (a := b) (by omega)] at hd
    have hhead : ((pyStr b).data).head? = some '0' := by rw [← hd]; rfl
    exact pyStr_head_ne_zero b (by omega) '0' hhead rfl
  · exfalso
    have hd := congrArg String.data hab
    rw [zfill_two_pyStr_ge (a := a) (by omega), zfill_two_pyStr_lt hb] at hd
    have hhead : ((pyStr a).data).head? = some '0' := by rw [hd]; rfl
    exact pyStr_head_ne_zero a (by omega) '0' hhead rfl
  · rw [zfill_two_pyStr_ge (a := a) (by omega), zfill_two_pyStr_ge (a := b) (by omega)] at hab
    exact pyStr_inj a b hab

/-! ### Helper lemmas: `str.replace` removal -/

theorem removeOccF_stable (p : Char) (ps : List Char) :
    ∀ f g l, l.length ≤ f → l.length ≤ g → removeOccF p ps f l = removeOccF p ps g l := by
  intro f
  induction f with
  | zero =>
    intro g l hf _
    have : l = [] := List.eq_nil_of_length_eq_zero (by omega)
    subst this
    cases g <;> rfl
  | succ f ih =>
    intro g l hf hg
    cases l with
    | nil => cases g <;> rfl
    | cons c cs =>
      match g, hg with
      | g + 1, hg' =>
        simp only [removeOccF]
        by_cases hpf : (p :: ps).isPrefixOf (c :: cs) = true
        · simp only [hpf, if_true]
          refine ih g (cs.drop ps.length) ?_ ?_ <;>
            · have := List.length_drop ps.length cs
              simp only [List.length_cons] at hf hg'
              omega
        · have hpf' : (p :: ps).isPrefixOf (c :: cs) = false := Bool.eq_false_iff.mpr hpf
          simp only [hpf', Bool.false_eq_true, if_false]
          have htail : removeOccF p ps f cs = removeOccF p ps g cs := by
            refine ih g cs ?_ ?_ <;>
              · simp only [List.length_cons] at hf hg'
                omega
          rw [htail]

theorem removeAllOcc_cons_pos {p : Char} {ps : List Char} {c : Char} {cs : List Char}
    (h : (p :: ps).isPrefixOf (c :: cs) = true) :
    removeAllOcc p ps (c :: cs) = removeAllOcc p ps (cs.drop ps.length) := by
  unfold removeAllOcc
  simp only [List.length_cons, removeOccF, h, if_true]
  refine removeOccF_stable p ps cs.length (cs.drop ps.length).length (cs.drop ps.length) ?_ ?_
  · have := List.length_drop ps.length cs
    omega
  · omega

theorem removeAllOcc_cons_neg {p : Char} {ps : List Char} {c : Char} {cs : List Char}
    (h : (p :: ps).isPrefixOf (c :: cs) = false) :
    removeAllOcc p ps (c :: cs) = c :: removeAllOcc p ps cs := by
  unfold removeAllOcc
  simp only [List.length_cons, removeOccF, h, Bool.false_eq_true, if_false]

theorem removeAllOcc_not_infix (p : Char) (ps : List Char) :
    ∀ l, ¬ ((p :: ps) <:+: l) → removeAllOcc p ps l = l := by
  intro l
  induction l with
  | nil => intro _; rfl
  | cons c cs ih =>
    intro hni
    have hpf : (p :: ps).isPrefixOf (c :: cs) = false := by
      by_cases h : (p :: ps).isPrefixOf (c :: cs) = true
      · exact absurd (List.isPrefixOf_iff_prefix.mp h).isInfix hni
      · exact Bool.eq_false_iff.mpr h
    rw [removeAllOcc_cons_neg hpf, ih (fun h => hni (List.infix_cons h))]

theorem removeAllOcc_strip (p : Char) (ps rest : List Char)
    (h : ¬ ((p :: ps) <:+: rest)) :
    removeAllOcc p ps ((p :: ps) ++ rest) = rest := by
  have hpf : (p :: ps).isPrefixOf (p :: (ps ++ rest)) = true := by
    rw [← List.cons_append]
    exact List.isPrefixOf_iff_prefix.mpr (List.prefix_append _ _)
  rw [List.cons_append, removeAllOcc_cons_pos hpf, List.drop_left]
  exact removeAllOcc_not_infix p ps rest h

/-! ### Helper lemmas: string concatenation cancellation -/

theorem str_append_cancel_mid (p q x y : String) (h : p ++ x ++ q = p ++ y ++ q) : x = y := by
  have hd := congrArg String.data h
  simp only [String.data_append] at hd
  exact String.ext (List.append_cancel_left (List.append_cancel_right hd))

theorem str_append_cancel_left (p x y : String) (h : p ++ x = p ++ y) : x = y := by
  have hd := congrArg String.data h
  simp only [String.data_append] at hd
  exact String.ext (List.append_cancel_left hd)

theorem vfArg_inj {a b : Nat} (h : vfArg a = vfArg b) : a = b :=
  pyStr_inj a b (str_append_cancel_mid ("fps=15,scale=") (":-1:flags=lanczos") _ _ h)

theorem seekArg_inj {a b : Nat} (h : seekArg a = seekArg b) : a = b :=
  zfill_two_pyStr_inj a b (str_append_cancel_left ("00:00:") _ _ h)

/-! ### Helper lemmas: pipeline steps -/

theorem zm_get_video_ok (wf : String) {files : List String} {today sf pfx eid : String}
    (h : zm_source_path sf today pfx eid ∈ files) :
    zm_get_video files today wf sf pfx eid =
      Except.ok (wf ++ "/" ++ eid ++ ".mp4",
        [Effect.copy (zm_source_path sf today pfx eid) (wf ++ "/" ++ eid ++ ".mp4")]) := by
  simp [zm_get_video, h]

theorem zm_get_video_err (wf : String) {files : List String} {today sf pfx eid : String}
    (h : zm_source_path sf today pfx eid ∉ files) :
    zm_get_video files today wf sf pfx eid = Except.error PyErr.ioError := by
  simp [zm_get_video, h]

theorem subscribeLoop_none (base : String) :
    ∀ cams, subscribeLoop base cams none =
      (cams.map (fun c => Effect.subscribe (base ++ "/" ++ c.id)), false) := by
  intro cams
  induction cams with
  | nil => rfl
  | cons c rest ih => simp [subscribeLoop, ih]

theorem subscribeLoop_fail (base : String) :
    ∀ cams k, k < cams.length → subscribeLoop base cams (some k) =
      ((cams.take k).map (fun c => Effect.subscribe (base ++ "/" ++ c.id)), true) := by
  intro cams
  induction cams with
  | nil => intro k h; simp at h
  | cons c rest ih =>
    intro k hk
    cases k with
    | zero => rfl
    | succ k =>
      have hk' : k < rest.length := by simpa using hk
      simp [subscribeLoop, ih k hk']

/-! ### Helper lemmas: `on_message` traces per branch -/

theorem on_message_decode_err {cfg : Config} {env : Env} {topic : String} {e : PyErr}
    (hdec : env.decodeOutcome = Except.error e) :
    on_message cfg env topic = [Effect.logError, Effect.disconnectCall] := by
  simp [on_message, hdec]

theorem on_message_no_camera {cfg : Config} {env : Env} {topic event_id : String}
    (hdec : env.decodeOutcome = Except.ok event_id)
    (hcam : cfg.zoneminder_cameras.find? (fun x => x.id == derivedCameraId cfg topic) = none) :
    on_message cfg env topic = [Effect.logError, Effect.disconnectCall] := by
  simp [on_message, hdec, hcam]

theorem on_message_no_src {cfg : Config} {env : Env} {topic event_id : String}
    {camera : CameraProfile}
    (hdec : env.decodeOutcome = Except.ok event_id)
    (hcam : cfg.zoneminder_cameras.find? (fun x => x.id == derivedCameraId cfg topic) = some camera)
    (hsrc : srcPath cfg env camera event_id ∉ env.files) :
    on_message cfg env topic = [Effect.logError, Effect.disconnectCall] := by
  have hz := zm_get_video_err cfg.ffmpeg_working_folder hsrc
  simp [on_message, hdec, hcam, hz]

theorem on_message_ffmpeg_raises {cfg : Config} {env : Env} {topic event_id : String}
    {camera : CameraProfile} {e : PyErr}
    (hdec : env.decodeOutcome = Except.ok event_id)
    (hcam : cfg.zoneminder_cameras.find? (fun x => x.id == derivedCameraId cfg topic) = some camera)
    (hsrc : srcPath cfg env camera event_id ∈ env.files)
    (hff : env.ffmpegOutcome = Except.error e) :
    on_message cfg env topic =
      [Effect.copy (srcPath cfg env camera event_id) (workingCopy cfg event_id),
       Effect.ffmpegCall (ffmpegArgs camera.scale camera.skip_first_n_secs camera.max_length_secs
         (workingCopy cfg event_id) (gifPath cfg event_id)),
       Effect.logError, Effect.disconnectCall] := by
  have hz := zm_get_video_ok cfg.ffmpeg_working_folder hsrc
  simp [on_message, hdec, hcam, hz, hff, convert_zm_video_to_gif, workingCopy, gifPath, srcPath]

theorem on_message_ffmpeg_nonzero {cfg : Config} {env : Env} {topic event_id : String}
    {camera : CameraProfile} {r : Int}
    (hdec : env.decodeOutcome = Except.ok event_id)
    (hcam : cfg.zoneminder_cameras.find? (fun x => x.id == derivedCameraId cfg topic) = some camera)
    (hsrc : srcPath cfg env camera event_id ∈ env.files)
    (hff : env.ffmpegOutcome = Except.ok r) (hr : r ≠ 0) :
    on_message cfg env topic =
      [Effect.copy (srcPath cfg env camera event_id) (workingCopy cfg event_id),
       Effect.ffmpegCall (ffmpegArgs camera.scale camera.skip_first_n_secs camera.max_length_secs
         (workingCopy cfg event_id) (gifPath cfg event_id)),
       Effect.removeFile (workingCopy cfg event_id),
       Effect.logError] := by
  have hz := zm_get_video_ok cfg.ffmpeg_working_folder hsrc
  simp [on_message, hdec, hcam, hz, hff, hr, convert_zm_video_to_gif, workingCopy, gifPath, srcPath]

theorem on_message_success_pub_ok {cfg : Config} {env : Env} {topic event_id : String}
    {camera : CameraProfile} {rc : Nat}
    (hdec : env.decodeOutcome = Except.ok event_id)
    (hcam : cfg.zoneminder_cameras.find? (fun x => x.id == derivedCameraId cfg topic) = some camera)
    (hsrc : srcPath cfg env camera event_id ∈ env.files)
    (hff : env.ffmpegOutcome = Except.ok 0)
    (hpub : env.publishOutcome = Except.ok rc) :
    on_message cfg env topic =
      [Effect.copy (srcPath cfg env camera event_id) (workingCopy cfg event_id),
       Effect.ffmpegCall (ffmpegArgs camera.scale camera.skip_first_n_secs camera.max_length_secs
         (workingCopy cfg event_id) (gifPath cfg event_id)),
       Effect.removeFile (workingCopy cfg event_id),
       Effect.publish (cfg.mqtt_base_gifs_topic ++ "/" ++ camera.id) (event_id ++ ".gif")] := by
  have hz := zm_get_video_ok cfg.ffmpeg_working_folder hsrc
  simp [on_message, hdec, hcam, hz, hff, hpub, convert_zm_video_to_gif, publish_gif,
    workingCopy, gifPath, srcPath]

theorem on_message_success_pub_raises {cfg : Config} {env : Env} {topic event_id : String}
    {camera : CameraProfile} {e : PyErr}
    (hdec : env.decodeOutcome = Except.ok event_id)
    (hcam : cfg.zoneminder_cameras.find? (fun x => x.id == derivedCameraId cfg topic) = some camera)
    (hsrc : srcPath cfg env camera event_id ∈ env.files)
    (hff : env.ffmpegOutcome = Except.ok 0)
    (hpub : env.publishOutcome = Except.error e) :
    on_message cfg env topic =
      [Effect.copy (srcPath cfg env camera event_id) (workingCopy cfg event_id),
       Effect.ffmpegCall (ffmpegArgs camera.scale camera.skip_first_n_secs camera.max_length_secs
         (workingCopy cfg event_id) (gifPath cfg event_id)),
       Effect.removeFile (workingCopy cfg event_id),
       Effect.publish (cfg.mqtt_base_gifs_topic ++ "/" ++ camera.id) (event_id ++ ".gif"),
       Effect.logError, Effect.disconnectCall, Effect.logError] := by
  have hz := zm_get_video_ok cfg.ffmpeg_working_folder hsrc
  simp [on_message, hdec, hcam, hz, hff, hpub, convert_zm_video_to_gif, publish_gif,
    workingCopy, gifPath, srcPath]

theorem pyReplaceRemove_cons {pat : String} {p : Char} {ps : List Char}
    (h : pat.data = p :: ps) (s : String) :
    pyReplaceRemove pat s = ⟨removeAllOcc p ps s.data⟩ := by
  unfold pyReplaceRemove
  split <;> simp_all

/-! ### Claim theorems -/

/-- Claim C1: for an inbound notification whose topic-derived camera
identifier matches a configured camera profile (and whose payload decodes
and whose source clip is present), if the transcoding invocation returns
exit status 0 then exactly one outbound publish is made, on channel
`<gifs-base-topic>/<camera.id>` with payload `<event_id>.gif`; if it
returns a non-zero exit status, no publish occurs. -/
theorem on_message_publish_exactly_on_success (cfg : Config) (env : Env)
    (topic event_id : String) (camera : CameraProfile)
    (hdec : env.decodeOutcome = Except.ok event_id)
    (hcam : cfg.zoneminder_cameras.find? (fun x => x.id == derivedCameraId cfg topic) = some camera)
    (hsrc : srcPath cfg env camera event_id ∈ env.files) :
    (env.ffmpegOutcome = Except.ok 0 →
      (on_message cfg env topic).filter isPublishEffect =
        [Effect.publish (cfg.mqtt_base_gifs_topic ++ "/" ++ camera.id) (event_id ++ ".gif")])
    ∧ (∀ r : Int, env.ffmpegOutcome = Except.ok r → r ≠ 0 →
      (on_message cfg env topic).filter isPublishEffect = []) := by
  constructor
  · intro hff
    cases hpo : env.publishOutcome with
    | ok rc =>
      rw [on_message_success_pub_ok hdec hcam hsrc hff hpo]
      simp [isPublishEffect]
    | error e =>
      rw [on_message_success_pub_raises hdec hcam hsrc hff hpo]
      simp [isPublishEffect]
  · intro r hff hr
    rw [on_message_ffmpeg_nonzero hdec hcam hsrc hff hr]
    simp [isPublishEffect]

/-- Witness for C1 at the spec example: camera `cam1`, event `123`. -/
theorem on_message_publish_exactly_on_success_witness :
    (on_message cfg1 env1 ("zm/events/cam1")).filter isPublishEffect =
      [Effect.publish (cfg1.mqtt_base_gifs_topic ++ "/" ++ cam1.id) ("123" ++ ".gif")] :=
  (on_message_publish_exactly_on_success cfg1 env1 ("zm/events/cam1") ("123") cam1
    rfl (by decide) (by decide)).1 rfl

/-- Claim C2: whenever some step of processing one inbound notification
raises an exception (payload decoding, camera lookup, video fetch,
transcoding, publish), the handler logs the error and calls `disconnect()`;
no exception escapes the message handler (`on_message` is a total function
of the environment in this embedding). -/
theorem on_message_exception_escalation (cfg : Config) (env : Env) (topic : String)
    (h : pipelineRaises cfg env topic = true) :
    Effect.logError ∈ on_message cfg env topic ∧
    Effect.disconnectCall ∈ on_message cfg env topic := by
  cases hdec : env.decodeOutcome with
  | error e =>
    rw [on_message_decode_err hdec]; simp
  | ok event_id =>
    cases hcam : cfg.zoneminder_cameras.find? (fun x => x.id == derivedCameraId cfg topic) with
    | none =>
      rw [on_message_no_camera hdec hcam]; simp
    | some camera =>
      by_cases hsrc : srcPath cfg env camera event_id ∈ env.files
      · have hsrc' : zm_source_path cfg.zoneminder_events_video_folder env.today
            camera.event_video_pfx event_id ∈ env.files := hsrc
        cases hff : env.ffmpegOutcome with
        | error e =>
          rw [on_message_ffmpeg_raises hdec hcam hsrc hff]; simp
        | ok r =>
          have hrp : r = 0 ∧ ∃ e, env.publishOutcome = Except.error e := by
            simp only [pipelineRaises, hdec, hcam, hsrc', if_true, hff] at h
            cases hpo : env.publishOutcome with
            | ok rc => simp [hpo] at h
            | error e =>
              simp [hpo] at h
              exact ⟨h, ⟨e, rfl⟩⟩
          obtain ⟨hr, e, hpo⟩ := hrp
          subst hr
          rw [on_message_success_pub_raises hdec hcam hsrc hff hpo]; simp
      · rw [on_message_no_src hdec hcam hsrc]; simp

/-- Witness for C2: the publish call raises on an otherwise-successful
processing of event `123`. -/
theorem on_message_exception_escalation_witness :
    Effect.logError ∈ on_message cfg1 envPubErr ("zm/events/cam1") ∧
    Effect.disconnectCall ∈ on_message cfg1 envPubErr ("zm/events/cam1") :=
  on_message_exception_escalation cfg1 envPubErr ("zm/events/cam1") (by decide)

/-- Claim C3: the video fetch builds the source path
`<source-root>/<today>/<event_video_prefix><event_id>.mp4`, copies it to
`<working-dir>/<event_id>.mp4` and returns that working-copy path; when the
source file is missing or unreadable it propagates an I/O error and creates
no working copy. -/
theorem zm_get_video_copies_or_errors (files : List String) (today wf sf pfx eid : String) :
    (zm_source_path sf today pfx eid ∈ files →
      zm_get_video files today wf sf pfx eid =
        Except.ok (wf ++ "/" ++ eid ++ ".mp4",
          [Effect.copy (zm_source_path sf today pfx eid) (wf ++ "/" ++ eid ++ ".mp4")]))
    ∧ (zm_source_path sf today pfx eid ∉ files →
      zm_get_video files today wf sf pfx eid = Except.error PyErr.ioError) :=
  ⟨fun h => zm_get_video_ok wf h, fun h => zm_get_video_err wf h⟩

/-- Witness for C3: event `123` of camera `cam1`, with and without the
source clip present. -/
theorem zm_get_video_copies_or_errors_witness :
    (zm_get_video ["/source/2026-10-12/cam1-123.mp4"] ("2026-10-12") ("/work") ("/source")
        ("cam1-") ("123") =
      Except.ok ("/work" ++ "/" ++ "123" ++ ".mp4",
        [Effect.copy (zm_source_path ("/source") ("2026-10-12") ("cam1-") ("123"))
          ("/work" ++ "/" ++ "123" ++ ".mp4")]))
    ∧ (zm_get_video [] ("2026-10-12") ("/work") ("/source") ("cam1-") ("123") =
        Except.error PyErr.ioError) :=
  ⟨(zm_get_video_copies_or_errors ["/source/2026-10-12/cam1-123.mp4"] ("2026-10-12") ("/work")
      ("/source") ("cam1-") ("123")).1 (by decide),
   (zm_get_video_copies_or_errors [] ("2026-10-12") ("/work") ("/source") ("cam1-")
      ("123")).2 (by decide)⟩

/-- Claim C4: the ffmpeg argument vector is a deterministic function of the
camera profile — frame rate fixed at 15, lanczos rescale with target width
`scale` and height `-1` (auto), seek offset `skip_first_n_secs` rendered as
`00:00:SS` (zero-padded; a well-formed `HH:MM:SS` string whenever the skip
is a valid seconds count `< 60`), duration cap `max_length_secs` — and
changing any one profile parameter changes exactly the corresponding
argument (position 5, 7 or 9) and no other. -/
theorem ffmpeg_invocation_deterministic (a b k l m n : Nat) (iv og : String) :
    (ffmpegArgs a k m iv og =
      ["ffmpeg", "-stats", "-i", iv, "-vf", "fps=15,scale=" ++ pyStr a ++ ":-1:flags=lanczos",
       "-ss", "00:00:" ++ zfill 2 (pyStr k), "-t", pyStr m, "-y", og])
    ∧ (ffmpegArgs b k m iv og = (ffmpegArgs a k m iv og).set 5 (vfArg b))
    ∧ (ffmpegArgs a l m iv og = (ffmpegArgs a k m iv og).set 7 (seekArg l))
    ∧ (ffmpegArgs a k n iv og = (ffmpegArgs a k m iv og).set 9 (pyStr n))
    ∧ (a ≠ b → vfArg a ≠ vfArg b)
    ∧ (k ≠ l → seekArg k ≠ seekArg l)
    ∧ (m ≠ n → pyStr m ≠ pyStr n)
    ∧ (k < 60 → (seekArg k).length = 8 ∧
        (seekArg k).data.take 6 = ['0', '0', ':', '0', '0', ':']) := by
  refine ⟨rfl, rfl, rfl, rfl, ?_, ?_, ?_, ?_⟩
  · exact fun hne h => hne (vfArg_inj h)
  · exact fun hne h => hne (seekArg_inj h)
  · exact fun hne h => hne (pyStr_inj m n h)
  · have hb : ∀ j, j < 60 → (seekArg j).length = 8 ∧
        (seekArg j).data.take 6 = ['0', '0', ':', '0', '0', ':'] := by decide
    exact hb k

/-- Witness for C4 at the spec example profile (480, 2, 8) against
(640, 3, 9). -/
theorem ffmpeg_invocation_deterministic_witness :
    vfArg 480 ≠ vfArg 640 ∧ seekArg 2 ≠ seekArg 3 ∧ pyStr 8 ≠ pyStr 9 ∧
    (seekArg 2).length = 8 := by
  have T := ffmpeg_invocation_deterministic 480 640 2 3 8 9 ("/work/123.mp4") ("/work/123.gif")
  exact ⟨T.2.2.2.2.1 (by decide), T.2.2.2.2.2.1 (by decide),
    T.2.2.2.2.2.2.1 (by decide), (T.2.2.2.2.2.2.2 (by decide)).1⟩

/-- Claim C5: `on_connect` (the callback run on a successful connection,
i.e. immediately after the transition into the `Connected` state) issues
exactly N subscribe calls for N configured cameras, one per channel
`<events-base-topic>/<camera.id>`, in configuration order, then marks the
flag; an exception at the k-th subscribe call stops the loop after the
first k subscribes and triggers an immediate `disconnect()`, leaving the
flag unchanged. -/
theorem on_connect_subscribes_all_cameras (cfg : Config) (flag : Bool) :
    (on_connect cfg none flag =
      (cfg.zoneminder_cameras.map
        (fun c => Effect.subscribe (cfg.mqtt_base_events_topic ++ "/" ++ c.id)), true))
    ∧ ((on_connect cfg none flag).1.length = cfg.zoneminder_cameras.length)
    ∧ (∀ k, k < cfg.zoneminder_cameras.length →
        on_connect cfg (some k) flag =
          ((cfg.zoneminder_cameras.take k).map
            (fun c => Effect.subscribe (cfg.mqtt_base_events_topic ++ "/" ++ c.id)) ++
            [Effect.logError, Effect.disconnectCall], flag)) := by
  refine ⟨?_, ?_, ?_⟩
  · simp [on_connect, subscribeLoop_none]
  · simp [on_connect, subscribeLoop_none]
  · intro k hk
    simp [on_connect, subscribeLoop_fail cfg.mqtt_base_events_topic cfg.zoneminder_cameras k hk]

/-- Witness for C5: a subscription exception at position 0 of `cfg1`. -/
theorem on_connect_subscribes_all_cameras_witness :
    on_connect cfg1 (some 0) false =
      ((cfg1.zoneminder_cameras.take 0).map
        (fun c => Effect.subscribe (cfg1.mqtt_base_events_topic ++ "/" ++ c.id)) ++
        [Effect.logError, Effect.disconnectCall], false) :=
  (on_connect_subscribes_all_cameras cfg1 false).2.2 0 (by decide)

/-- Claim C6: an inbound notification whose derived camera identifier
matches no configured camera profile is a processing failure: the trace is
exactly the failure-escalation path (log plus forced disconnect), so no
video fetch, no transcoding invocation and no publish occurs. -/
theorem on_message_unmatched_camera (cfg : Config) (env : Env) (topic event_id : String)
    (hdec : env.decodeOutcome = Except.ok event_id)
    (hcam : cfg.zoneminder_cameras.find? (fun x => x.id == derivedCameraId cfg topic) = none) :
    on_message cfg env topic = [Effect.logError, Effect.disconnectCall] :=
  on_message_no_camera hdec hcam

/-- Witness for C6: topic suffix `nope` matches no camera of `cfg1`. -/
theorem on_message_unmatched_camera_witness :
    on_message cfg1 env1 ("zm/events/nope") = [Effect.logError, Effect.disconnectCall] :=
  on_message_unmatched_camera cfg1 env1 ("zm/events/nope") ("123") rfl (by decide)

/-- Claim C7: whenever the transcoding invocation returns (with exit status
zero or non-zero alike), the working copy of the source clip is deleted,
and that deletion is the only filesystem mutation the transcoding step
performs. -/
theorem convert_deletes_source_unconditionally (scale skip_first_n_secs max_length_secs : Nat)
    (iv og : String) (r : Int) :
    ((convert_zm_video_to_gif (Except.ok r) scale skip_first_n_secs max_length_secs iv og).2 =
      [Effect.ffmpegCall (ffmpegArgs scale skip_first_n_secs max_length_secs iv og),
       Effect.removeFile iv])
    ∧ ((convert_zm_video_to_gif (Except.ok r) scale skip_first_n_secs max_length_secs
        iv og).2.filter isFileMutation = [Effect.removeFile iv]) := by
  refine ⟨rfl, ?_⟩
  simp [convert_zm_video_to_gif, isFileMutation]

/-- Claim C8 counterexample (as stated): the derived camera identifier is
not always the topic with the leading `<events-base-topic>/` stripped once
from the front — `str.replace` removes every occurrence, so with base `b`
and topic `b/cb/1` the code yields `c1` while a single front strip yields
`cb/1`. -/
theorem camera_id_replace_all_counterexample :
    derivedCameraId cfgB ("b/cb/1") = "c1" ∧
    stripOnceFront (cfgB.mqtt_base_events_topic ++ "/") ("b/cb/1") = "cb/1" ∧
    derivedCameraId cfgB ("b/cb/1") ≠
      stripOnceFront (cfgB.mqtt_base_events_topic ++ "/") ("b/cb/1") := by
  refine ⟨by decide, by decide, by decide⟩

/-- Claim C8 amended: the derived camera identifier is the inbound topic
with every occurrence of `<events-base-topic>/` removed (Python
`str.replace` semantics); in particular, when the topic is the prefix
followed by a remainder that does not itself contain the prefix, this
equals stripping the prefix exactly once from the front with the remainder
unchanged. -/
theorem camera_id_removes_every_occurrence (cfg : Config) (topic : String) (rest : List Char)
    (h1 : topic.data = (cfg.mqtt_base_events_topic ++ "/").data ++ rest)
    (h2 : ¬ ((cfg.mqtt_base_events_topic ++ "/").data <:+: rest)) :
    derivedCameraId cfg topic = ⟨rest⟩ := by
  have hpat : (cfg.mqtt_base_events_topic ++ "/").data =
      cfg.mqtt_base_events_topic.data ++ ['/'] := by
    rw [String.data_append]
  cases hb : (cfg.mqtt_base_events_topic ++ "/").data with
  | nil =>
    rw [hb] at hpat
    exact absurd hpat.symm (by simp)
  | cons p ps =>
    rw [hb] at h1 h2
    unfold derivedCameraId
    rw [pyReplaceRemove_cons hb topic, h1, removeAllOcc_strip p ps rest h2]

/-- Witness for C8 amended: base `zm/events`, topic `zm/events/cam1`. -/
theorem camera_id_removes_every_occurrence_witness :
    derivedCameraId cfg1 ("zm/events/cam1") = ⟨['c', 'a', 'm', '1']⟩ :=
  camera_id_removes_every_occurrence cfg1 ("zm/events/cam1") ['c', 'a', 'm', '1']
    (by decide) (by decide)

/-- Claim C9 counterexample (as stated): `publish_gif` does not report the
success/failure of the send call itself — when the mqtt publish call
returns the failing paho result code 4 (`MQTT_ERR_NO_CONN`), the function
still returns `True`. -/
theorem publish_gif_ignores_send_result_code :
    mqttCallFailed (Except.ok 4) = true ∧
    (publish_gif (Except.ok 4) cfg1 ("cam1") ("123.gif")).1 = some true := by
  refine ⟨rfl, rfl⟩

/-- Claim C9 amended: `publish_gif` sends the artifact filename as the
payload on channel `<gifs-base-topic>/<camera.id>`, reports success
whenever the send call returns (its result code is only logged, never
inspected), and reports failure (`None`) with an immediate `disconnect()`
exactly when the send call raises an exception. -/
theorem publish_gif_success_iff_call_returns (o : Except PyErr Nat) (cfg : Config)
    (cam gif : String) :
    ((publish_gif o cfg cam gif).1 = some true ↔ ∃ rc, o = Except.ok rc)
    ∧ ((publish_gif o cfg cam gif).2.head? =
        some (Effect.publish (cfg.mqtt_base_gifs_topic ++ "/" ++ cam) gif))
    ∧ (∀ e, o = Except.error e →
        (publish_gif o cfg cam gif).1 = none ∧
        Effect.disconnectCall ∈ (publish_gif o cfg cam gif).2) := by
  cases o <;> simp [publish_gif]

/-- Witness for C9 amended: a raising publish call reports failure and
disconnects. -/
theorem publish_gif_success_iff_call_returns_witness :
    (publish_gif (Except.error PyErr.mqttError) cfg1 ("cam1") ("1.gif")).1 = none ∧
    Effect.disconnectCall ∈ (publish_gif (Except.error PyErr.mqttError) cfg1
      ("cam1") ("1.gif")).2 :=
  (publish_gif_success_iff_call_returns (Except.error PyErr.mqttError) cfg1 ("cam1")
    ("1.gif")).2.2 PyErr.mqttError rfl

/-- Claim C10: the subscribe- and publish-acknowledgement callbacks set the
shared `sub_connected` flag to `true` unconditionally, whatever its prior
value; consequently the driving loop's next poll after such an
acknowledgement does not call `connect()`. -/
theorem ack_callbacks_mark_connected :
    ∀ s : Bool, on_subscribe s = true ∧ on_publish s = true ∧
      mainLoopIteration (on_subscribe s) = [] ∧ mainLoopIteration (on_publish s) = [] := by
  intro s
  exact ⟨rfl, rfl, rfl, rfl⟩
